import Mathlib

/-!
Shallow embedding of the stock/weather backend (src/backend/main.py and
src/backend/api.py): the two capability implementations, the MCP client
lifecycle and tool resolution, and the websocket streaming loop, each modelled
as a total Lean function over explicit oracles for the external collaborators
(HTTP fetch, stock download, regression fit, uuid generation, current time).
-/

set_option linter.unusedVariables false

/-- JSON-like values exchanged by the backend: inbound websocket messages,
capability result payloads and outbound responses. Numbers are modelled as
integers. -/
inductive Value where
  | vStr : String → Value
  | vInt : Int → Value
  | vDict : List (String × Value) → Value

/-- A Python dict with string keys, as an association list (keys are unique in
all dicts the program builds; lookup takes the first binding, matching dict
semantics). -/
abbrev Dict := List (String × Value)

/-- Membership lookup: the value bound to key `k`, if any. -/
def Dict.get? : Dict → String → Option Value
  | [], _ => none
  | (k', v) :: rest, k => if k' = k then some v else Dict.get? rest k

/-- Python `d.get(k, dflt)`. -/
def Dict.getD (d : Dict) (k : String) (dflt : Value) : Value :=
  match Dict.get? d k with
  | some v => v
  | none => dflt

/-- Python `str(value)` as interpolated into f-strings; the rendering of a
nested dict is abstracted (no code path under proof observes it). -/
def Value.pyStr : Value → String
  | .vStr s => s
  | .vInt n => toString n
  | .vDict _ => "\x7b...\x7d"

/-- Python `if not api_key:` — true when the environment variable is unset
(`none`) or empty. -/
def pyFalsy : Option String → Bool
  | none => true
  | some s => s.isEmpty

/-- Outcome of the external OpenWeatherMap HTTP fetch inside `get_weather`
(main.py lines 38-41): either the fields read out of the response JSON, or any
exception raised by the request, the status check or the JSON field access. -/
inductive FetchOutcome where
  | ok (temp humidity : Int) (condition : String)
  | raises (msg : String)

/-- main.py lines 33-51 (and identically api.py lines 4-25), `get_weather`:
the direct local weather capability. `apiKey` is
`os.getenv("OPENWEATHER_API_KEY")`; the HTTP fetch is the oracle `fetch`;
`now` is the formatted current time `datetime.now().strftime(...)`. -/
def get_weather (apiKey : Option String) (fetch : FetchOutcome) (location : Value)
    (now : String) : Dict :=
  if pyFalsy apiKey then
    [("status", .vStr "error"),
     ("error_message", .vStr "Missing OpenWeatherMap API key")]
  else
    match fetch with
    | .ok t h c =>
      [("status", .vStr "success"), ("location", location),
       ("temperature", .vInt t), ("humidity", .vInt h),
       ("weather_condition", .vStr c), ("timestamp", .vStr now)]
    | .raises msg =>
      [("status", .vStr "error"),
       ("error_message", .vStr ("Failed to fetch weather: " ++ msg))]

/-- Outcome of `yf.download` in `predict_stock_price` (main.py line 58): the
Close column of the downloaded frame, or a raised exception. -/
inductive DownloadResult where
  | ok (closes : List Int)
  | raises (msg : String)

/-- Outcome of the pandas/sklearn block of `predict_stock_price` (main.py
lines 61-71: DataFrame build, LinearRegression fit and predict, rounding):
the rounded predicted price, or a raised exception. -/
inductive FitResult where
  | ok (price : Int)
  | raises (msg : String)

/-- main.py lines 54-79, `predict_stock_price`: downloads 30 days of stock
data; empty data yields the no-data error; otherwise the statistical block
(the oracle `fit`) runs on the close prices together with
`weather_data.get("temperature", 0)` and `weather_data.get("humidity", 0)`,
so a missing key contributes 0. Every raised exception is caught and turned
into the prediction-failed error payload. -/
def predict_stock_price (download : DownloadResult)
    (fit : List Int → Value → Value → FitResult)
    (ticker : Value) (weather_data : Dict) (now : String) : Dict :=
  match download with
  | .raises msg =>
    [("status", .vStr "error"),
     ("error_message", .vStr ("Prediction failed: " ++ msg))]
  | .ok closes =>
    if closes.isEmpty then
      [("status", .vStr "error"),
       ("error_message", .vStr ("No stock data for " ++ ticker.pyStr))]
    else
      match fit closes (Dict.getD weather_data "temperature" (.vInt 0))
                       (Dict.getD weather_data "humidity" (.vInt 0)) with
      | .ok price =>
        [("status", .vStr "success"), ("ticker", ticker),
         ("predicted_price", .vInt price), ("timestamp", .vStr now)]
      | .raises msg =>
        [("status", .vStr "error"),
         ("error_message", .vStr ("Prediction failed: " ++ msg))]

/-- Handle to a started MCP StdioClient subprocess, abstracted to an id. -/
abbrev McpHandle := Nat

/-- main.py lines 84-96, `start_mcp_client`: tries to build and start the
StdioClient; on any exception the global `mcp_client` is set to `None`. The
attempt's outcome is the oracle argument; the result is the value the global
`mcp_client` holds afterwards. -/
def start_mcp_client (attempt : Except String McpHandle) : Option McpHandle :=
  match attempt with
  | .ok h => some h
  | .error _ => none

/-- The tool implementation wired into an agent by `initialize_agents`. -/
inductive ToolImpl where
  | localWeather
  | proxyCall (h : McpHandle)
  | localPredict
deriving DecidableEq

/-- main.py lines 99-123, `initialize_agents`: reads the current global
`mcp_client` at each invocation; the weather agent gets
`FunctionTool(get_weather)` when it is `None` and
`FunctionTool(mcp_client.call)` otherwise; the stock prediction agent always
gets the local `FunctionTool(predict_stock_price)`. The pair is the (weather,
prediction) tool choice of the orchestrator built by this invocation. -/
def initialize_agents (mcp_client : Option McpHandle) : ToolImpl × ToolImpl :=
  ((match mcp_client with
    | none => ToolImpl.localWeather
    | some h => ToolImpl.proxyCall h),
   ToolImpl.localPredict)

/-- Collaborator behavior for the rounds of a websocket connection: the
weather API key and fetch outcome, the stock download and fit outcomes, and
the formatted current time. -/
structure RoundEnv where
  apiKey : Option String
  fetch : FetchOutcome
  download : DownloadResult
  fit : List Int → Value → Value → FitResult
  now : String

/-- main.py lines 161-163: the natural-language query handed to the
orchestrator, with the `.get` defaults applied. -/
def roundQuery (d : Dict) : String :=
  "Predict the stock price for " ++ (Dict.getD d "ticker" (.vStr "ADM")).pyStr ++
    " using weather data from " ++ (Dict.getD d "location" (.vStr "Chicago")).pyStr ++ "."

/-- main.py lines 160-183, one round's outbound response: extract `ticker`
and `location` with their defaults, bind the orchestrator's final-response
text to `result` (main.py lines 168-176; never read afterwards), then always
call `get_weather` and `predict_stock_price` directly and build the response
dict from those two values and the timestamp. `orch` is the orchestrator
final-response text (`none` when no final-response event occurred). -/
def ws_round (env : RoundEnv) (orch : Option String) (d : Dict) : Dict :=
  let ticker := Dict.getD d "ticker" (.vStr "ADM")
  let location := Dict.getD d "location" (.vStr "Chicago")
  let result := orch
  let weather_data := get_weather env.apiKey env.fetch location env.now
  let prediction := predict_stock_price env.download env.fit ticker weather_data env.now
  [("weather", .vDict weather_data), ("prediction", .vDict prediction),
   ("timestamp", .vStr env.now)]

/-- One transport-level event seen by `websocket.receive_json`, in program
order: a well-formed message, a receive that raises (malformed frame), or a
transport disconnect. -/
inductive InEvent where
  | msg (d : Dict)
  | badMsg (e : String)
  | disconnect

/-- Observable actions of the endpoint task, in order: an orchestrator run
(`runner.run` with the session identity and query), a sent response, a sleep. -/
inductive OutEvent where
  | ran (user_id session_id query : String)
  | sent (d : Dict)
  | slept (n : Nat)

/-- State of the loop after consuming a finite event script: still blocked in
`receive_json` with the connection open, or the websocket closed. -/
inductive LoopEnd where
  | waiting
  | closedConn
deriving DecidableEq

/-- Message of the NameError raised when the except clause of main.py line 186
is matched: `WebSocketDisconnect` is referenced but never imported (main.py
line 7 imports only FastAPI and WebSocket). Exact Python wording abstracted. -/
def nameErrorMsg : String := "NameError: name WebSocketDisconnect is not defined"

/-- The error payload shape sent by the exception handlers (main.py lines
191 and 194). -/
def errorDict (msg : String) : Dict :=
  [("status", .vStr "error"), ("error_message", .vStr msg)]

/-- main.py lines 158-197, the `while True` receive/run/send/sleep loop, run
against a finite script of transport events. On a valid message: run the
orchestrator (`ran`), send the directly recomputed response (`sent`), sleep 60
(`slept`), and loop. On an exception inside the round — here a malformed
message — matching the first except clause evaluates the unbound name
`WebSocketDisconnect`, raising NameError; that NameError is not caught by the
inner `except Exception` (clause matching aborts), reaches the outer handler
(main.py line 192), which sends one error payload, and the `finally` closes
the websocket. On a transport disconnect the same NameError path runs, but
the outer send fails on the disconnected transport, so nothing more is sent
and the websocket is closed. -/
def ws_loop (env : RoundEnv) (orch : Option String) (uid sid : String) :
    List InEvent → List OutEvent × LoopEnd
  | [] => ([], LoopEnd.waiting)
  | InEvent.msg d :: rest =>
    let r := ws_loop env orch uid sid rest
    (OutEvent.ran uid sid (roundQuery d) :: OutEvent.sent (ws_round env orch d) ::
       OutEvent.slept 60 :: r.1, r.2)
  | InEvent.badMsg _ :: _ =>
    ([OutEvent.sent (errorDict nameErrorMsg)], LoopEnd.closedConn)
  | InEvent.disconnect :: _ => ([], LoopEnd.closedConn)

/-- The ADK session identity created for one connection (main.py lines
144-151). -/
structure Session where
  app_name : String
  user_id : String
  session_id : String
deriving DecidableEq

/-- main.py lines 144-151: two fresh uuid4 draws, modelled as positions `k`
and `k + 1` of a uuid stream, give the connection its `user_id` and
`session_id`; `create_session` is called once with them. -/
def connection_session (appName : String) (uuid : Nat → String) (k : Nat) : Session :=
  { app_name := appName,
    user_id := "user_" ++ uuid k,
    session_id := "session_" ++ uuid (k + 1) }

/-- main.py lines 140-197, `websocket_endpoint`: accept the connection, create
the one session and the runner from it, then run every round of the loop with
that same session identity. -/
def websocket_endpoint (env : RoundEnv) (orch : Option String) (appName : String)
    (uuid : Nat → String) (k : Nat) (script : List InEvent) :
    Session × List OutEvent × LoopEnd :=
  let s := connection_session appName uuid k
  (s, ws_loop env orch s.user_id s.session_id script)

/-- One suggested activity of the repository's travel variant (spec section 6:
`{name, cost, suitable_weather}`). -/
structure Activity where
  name : String
  cost : Nat
  suitable_weather : String
deriving DecidableEq

/-- Modelled from the spec: the travel single-shot variant defining
`suggest_activities` is not under src/ (only main.py and api.py are). Per the
spec (sections 7 and 8), the capability filters a catalog of activities by the
user's interests, the budget and the weather, and degrades to the single
"relax at hotel" / cost 0 fallback when no activity fits; the catalog holds
the hiking activity of the spec's round trip, cost 10, suited to clear
weather. -/
def suggest_activities (weather : Dict) (interests : List String) (budget : Nat) :
    List Activity :=
  let condition := (Dict.getD weather "condition" (.vStr "")).pyStr
  let chosen := ([⟨"hiking", 10, "clear"⟩] : List Activity).filter
    (fun a => interests.contains a.name && decide (a.cost ≤ budget) &&
      a.suitable_weather == condition)
  if chosen.isEmpty then [⟨"relax at hotel", 0, "any"⟩] else chosen

/-- A concrete collaborator environment for witnesses: every external
collaborator is down. -/
def env0 : RoundEnv :=
  { apiKey := none,
    fetch := FetchOutcome.raises "connection refused",
    download := DownloadResult.raises "connection refused",
    fit := fun _ _ _ => FitResult.raises "no fit",
    now := "2026-10-12 00:00:00" }

/-- A concrete injective uuid stream for witnesses. -/
def uuidW (n : Nat) : String := String.mk (List.replicate n 'a')

/-- Left cancellation for string concatenation, used for uuid-freshness
arguments about session identifiers. -/
theorem string_append_cancel {p a b : String} (h : p ++ a = p ++ b) : a = b := by
  have hd := congrArg String.data h
  simp [String.data_append] at hd
  cases a; cases b; exact congrArg String.mk hd

/-- Every orchestrator-run event emitted by the loop carries the session
identity the loop was started with. -/
theorem ws_loop_ran_ids (env : RoundEnv) (orch : Option String) (uid sid : String)
    (script : List InEvent) (u s q : String)
    (hmem : OutEvent.ran u s q ∈ (ws_loop env orch uid sid script).1) :
    u = uid ∧ s = sid := by
  induction script with
  | nil => simp [ws_loop] at hmem
  | cons ev rest ih =>
    cases ev with
    | msg d =>
      simp only [ws_loop, List.mem_cons] at hmem
      rcases hmem with h | h | h | h
      · cases h; exact ⟨rfl, rfl⟩
      · cases h
      · cases h
      · exact ih h
    | badMsg e =>
      simp only [ws_loop, List.mem_cons, List.not_mem_nil, or_false] at hmem
      cases hmem
    | disconnect =>
      simp [ws_loop] at hmem

/-- Claim C1: each round's outbound response is built exclusively from the
directly computed `get_weather` and `predict_stock_price` values: it is
independent of the orchestrator's final-response text, has exactly the keys
weather, prediction, timestamp, equals the dict built from the two direct
calls, and in the loop the orchestrator run precedes the send of that
directly built response. -/
theorem ws_round_uses_direct_results (env : RoundEnv) (o1 o2 : Option String)
    (d : Dict) (uid sid : String) :
    ws_round env o1 d = ws_round env o2 d ∧
    (ws_round env o1 d).map Prod.fst = ["weather", "prediction", "timestamp"] ∧
    ws_round env o1 d =
      [("weather", Value.vDict (get_weather env.apiKey env.fetch
          (Dict.getD d "location" (Value.vStr "Chicago")) env.now)),
       ("prediction", Value.vDict (predict_stock_price env.download env.fit
          (Dict.getD d "ticker" (Value.vStr "ADM"))
          (get_weather env.apiKey env.fetch
            (Dict.getD d "location" (Value.vStr "Chicago")) env.now) env.now)),
       ("timestamp", Value.vStr env.now)] ∧
    ws_loop env o1 uid sid [InEvent.msg d] =
      ([OutEvent.ran uid sid (roundQuery d), OutEvent.sent (ws_round env o1 d),
        OutEvent.slept 60], LoopEnd.waiting) :=
  ⟨rfl, rfl, rfl, rfl⟩

/-- Claim C2: whenever the global mcp_client is None — in particular after a
failed startup attempt — `initialize_agents` wires the local direct
implementation for every capability and, being a total function, raises no
exception; moreover the choice tracks the value of the global read at each
invocation (a later call with a connected client yields the proxy invoker),
so the decision is not cached permanently. -/
theorem initialize_agents_local_fallback (attempt : Except String McpHandle)
    (h : start_mcp_client attempt = none) :
    initialize_agents (start_mcp_client attempt) =
      (ToolImpl.localWeather, ToolImpl.localPredict) ∧
    initialize_agents none = (ToolImpl.localWeather, ToolImpl.localPredict) ∧
    ∀ hdl : McpHandle, initialize_agents (some hdl) =
      (ToolImpl.proxyCall hdl, ToolImpl.localPredict) := by
  refine ⟨?_, rfl, fun hdl => rfl⟩
  rw [h]
  rfl

theorem initialize_agents_local_fallback_witness :
    start_mcp_client (Except.error "spawn failed") = none ∧
    (initialize_agents (start_mcp_client (Except.error "spawn failed")) =
      (ToolImpl.localWeather, ToolImpl.localPredict) ∧
     initialize_agents none = (ToolImpl.localWeather, ToolImpl.localPredict) ∧
     ∀ hdl : McpHandle, initialize_agents (some hdl) =
       (ToolImpl.proxyCall hdl, ToolImpl.localPredict)) :=
  ⟨rfl, initialize_agents_local_fallback (Except.error "spawn failed") rfl⟩

/-- Claim C3, evaluated on the code: on a malformed inbound message the loop
does not keep the connection open. Matching the first except clause raises
NameError because `WebSocketDisconnect` is never imported; the outer handler
sends one error payload and the finally block closes the websocket, so the
following valid message is never processed. -/
theorem ws_loop_round_error_closes_connection :
    ws_loop env0 none "u" "s" [InEvent.badMsg "invalid json", InEvent.msg []] =
      ([OutEvent.sent (errorDict nameErrorMsg)], LoopEnd.closedConn) := rfl

/-- Claim C4: with OPENWEATHER_API_KEY unset or empty, `get_weather` returns
exactly the missing-key error payload, raises nothing (it is total), and
never performs the HTTP fetch: the result is identical for every fetch
outcome. -/
theorem get_weather_missing_key (k : Option String) (f1 f2 : FetchOutcome)
    (loc : Value) (now : String) (h : pyFalsy k = true) :
    get_weather k f1 loc now =
      [("status", Value.vStr "error"),
       ("error_message", Value.vStr "Missing OpenWeatherMap API key")] ∧
    get_weather k f1 loc now = get_weather k f2 loc now := by
  constructor <;> simp [get_weather, h]

theorem get_weather_missing_key_witness :
    pyFalsy none = true ∧
    (get_weather none (FetchOutcome.ok 20 50 "clear skies") (Value.vStr "Chicago")
        "2026-10-12 00:00:00" =
      [("status", Value.vStr "error"),
       ("error_message", Value.vStr "Missing OpenWeatherMap API key")] ∧
     get_weather none (FetchOutcome.ok 20 50 "clear skies") (Value.vStr "Chicago")
        "2026-10-12 00:00:00" =
      get_weather none (FetchOutcome.raises "timeout") (Value.vStr "Chicago")
        "2026-10-12 00:00:00") :=
  ⟨rfl, get_weather_missing_key none (FetchOutcome.ok 20 50 "clear skies")
    (FetchOutcome.raises "timeout") (Value.vStr "Chicago") "2026-10-12 00:00:00" rfl⟩

/-- Claim C5: for every behavior of the external collaborators both capability
implementations terminate with a mapping whose status field is success or
error; since both are total Lean functions over all collaborator outcomes,
no exception escapes a capability boundary. -/
theorem capabilities_status_tagged :
    (∀ (k : Option String) (f : FetchOutcome) (loc : Value) (now : String),
       Dict.get? (get_weather k f loc now) "status" = some (Value.vStr "success") ∨
       Dict.get? (get_weather k f loc now) "status" = some (Value.vStr "error")) ∧
    (∀ (dl : DownloadResult) (fit : List Int → Value → Value → FitResult)
       (t : Value) (wd : Dict) (now : String),
       Dict.get? (predict_stock_price dl fit t wd now) "status" =
           some (Value.vStr "success") ∨
       Dict.get? (predict_stock_price dl fit t wd now) "status" =
           some (Value.vStr "error")) := by
  constructor
  · intro k f loc now
    cases hk : pyFalsy k with
    | true => right; simp [get_weather, hk, Dict.get?]
    | false => cases f <;> simp [get_weather, hk, Dict.get?]
  · intro dl fit t wd now
    cases dl with
    | raises msg => right; rfl
    | ok closes =>
      cases he : closes.isEmpty with
      | true => right; simp [predict_stock_price, he, Dict.get?]
      | false =>
        cases hf : fit closes (Dict.getD wd "temperature" (Value.vInt 0))
            (Dict.getD wd "humidity" (Value.vInt 0)) with
        | ok price => left; simp [predict_stock_price, he, hf, Dict.get?]
        | raises msg => right; simp [predict_stock_price, he, hf, Dict.get?]

/-- Claim C6: after each round's sent response the task sleeps 60 time units
before the next blocking read; two inbound messages queued within the pacing
window on one connection each receive an outbound response, in the order
sent, with the connection still open afterward; appending a transport
disconnect terminates the loop with the websocket closed. -/
theorem ws_loop_pacing_and_order (env : RoundEnv) (orch : Option String)
    (uid sid : String) (d1 d2 : Dict) :
    ws_loop env orch uid sid [InEvent.msg d1, InEvent.msg d2] =
      ([OutEvent.ran uid sid (roundQuery d1), OutEvent.sent (ws_round env orch d1),
        OutEvent.slept 60,
        OutEvent.ran uid sid (roundQuery d2), OutEvent.sent (ws_round env orch d2),
        OutEvent.slept 60], LoopEnd.waiting) ∧
    ws_loop env orch uid sid [InEvent.msg d1, InEvent.msg d2, InEvent.disconnect] =
      ([OutEvent.ran uid sid (roundQuery d1), OutEvent.sent (ws_round env orch d1),
        OutEvent.slept 60,
        OutEvent.ran uid sid (roundQuery d2), OutEvent.sent (ws_round env orch d2),
        OutEvent.slept 60], LoopEnd.closedConn) :=
  ⟨rfl, rfl⟩

/-- Claim C7: the one session of a connection is fixed by the accept-time uuid
draws alone (independent of the script of rounds and of the collaborators),
every orchestrator run of the connection uses exactly that session identity,
and two connections whose session uuid draws differ have different sessions,
so a session is never shared between connections. -/
theorem websocket_session_identity (env1 env2 : RoundEnv) (o1 o2 : Option String)
    (appName : String) (uuid : Nat → String) (k1 k2 : Nat)
    (sc1 sc2 : List InEvent) (hs : uuid (k1 + 1) ≠ uuid (k2 + 1)) :
    (websocket_endpoint env1 o1 appName uuid k1 sc1).1 =
      connection_session appName uuid k1 ∧
    (∀ u s q,
        OutEvent.ran u s q ∈ (websocket_endpoint env1 o1 appName uuid k1 sc1).2.1 →
        u = (connection_session appName uuid k1).user_id ∧
        s = (connection_session appName uuid k1).session_id) ∧
    (websocket_endpoint env1 o1 appName uuid k1 sc1).1 ≠
      (websocket_endpoint env2 o2 appName uuid k2 sc2).1 := by
  refine ⟨rfl, ?_, ?_⟩
  · intro u s q hmem
    exact ws_loop_ran_ids env1 o1 _ _ sc1 u s q hmem
  · intro heq
    have hsid := congrArg Session.session_id heq
    exact hs (string_append_cancel hsid)

theorem websocket_session_identity_witness :
    uuidW (0 + 1) ≠ uuidW (2 + 1) ∧
    ((websocket_endpoint env0 none "stock_weather_app" uuidW 0 []).1 =
       connection_session "stock_weather_app" uuidW 0 ∧
     (∀ u s q,
         OutEvent.ran u s q ∈ (websocket_endpoint env0 none "stock_weather_app" uuidW 0 []).2.1 →
         u = (connection_session "stock_weather_app" uuidW 0).user_id ∧
         s = (connection_session "stock_weather_app" uuidW 0).session_id) ∧
     (websocket_endpoint env0 none "stock_weather_app" uuidW 0 []).1 ≠
       (websocket_endpoint env0 none "stock_weather_app" uuidW 2 []).1) :=
  ⟨by decide,
   websocket_session_identity env0 env0 none none "stock_weather_app" uuidW 0 2 [] []
     (by decide)⟩

/-- Claim C8: each default is applied independently: when ticker is absent
from the inbound message the value ADM is used, and when location is absent
the value Chicago is used, in both the orchestrator query and the direct
recomputation that builds the round response, whatever the other field
holds. -/
theorem ws_round_defaults (env : RoundEnv) (orch : Option String) (d : Dict) :
    (Dict.get? d "ticker" = none →
      roundQuery d =
        "Predict the stock price for ADM using weather data from " ++
          (Dict.getD d "location" (Value.vStr "Chicago")).pyStr ++ "." ∧
      ws_round env orch d =
        [("weather", Value.vDict (get_weather env.apiKey env.fetch
            (Dict.getD d "location" (Value.vStr "Chicago")) env.now)),
         ("prediction", Value.vDict (predict_stock_price env.download env.fit
            (Value.vStr "ADM")
            (get_weather env.apiKey env.fetch
              (Dict.getD d "location" (Value.vStr "Chicago")) env.now) env.now)),
         ("timestamp", Value.vStr env.now)]) ∧
    (Dict.get? d "location" = none →
      roundQuery d =
        "Predict the stock price for " ++
          (Dict.getD d "ticker" (Value.vStr "ADM")).pyStr ++
          " using weather data from Chicago." ∧
      ws_round env orch d =
        [("weather", Value.vDict (get_weather env.apiKey env.fetch
            (Value.vStr "Chicago") env.now)),
         ("prediction", Value.vDict (predict_stock_price env.download env.fit
            (Dict.getD d "ticker" (Value.vStr "ADM"))
            (get_weather env.apiKey env.fetch (Value.vStr "Chicago") env.now)
            env.now)),
         ("timestamp", Value.vStr env.now)]) := by
  constructor
  · intro ht
    have h1 : Dict.getD d "ticker" (Value.vStr "ADM") = Value.vStr "ADM" := by
      simp [Dict.getD, ht]
    constructor
    · simp only [roundQuery, h1]
      rfl
    · simp only [ws_round, h1]
  · intro hl
    have h2 : Dict.getD d "location" (Value.vStr "Chicago") = Value.vStr "Chicago" := by
      simp [Dict.getD, hl]
    constructor
    · simp only [roundQuery, h2]
      simp only [String.append_assoc]
      rfl
    · simp only [ws_round, h2]

theorem ws_round_defaults_witness :
    (Dict.get? [("location", Value.vStr "Paris")] "ticker" = none ∧
     (roundQuery [("location", Value.vStr "Paris")] =
        "Predict the stock price for ADM using weather data from " ++
          (Dict.getD [("location", Value.vStr "Paris")] "location"
            (Value.vStr "Chicago")).pyStr ++ "." ∧
      ws_round env0 none [("location", Value.vStr "Paris")] =
        [("weather", Value.vDict (get_weather env0.apiKey env0.fetch
            (Dict.getD [("location", Value.vStr "Paris")] "location"
              (Value.vStr "Chicago")) env0.now)),
         ("prediction", Value.vDict (predict_stock_price env0.download env0.fit
            (Value.vStr "ADM")
            (get_weather env0.apiKey env0.fetch
              (Dict.getD [("location", Value.vStr "Paris")] "location"
                (Value.vStr "Chicago")) env0.now) env0.now)),
         ("timestamp", Value.vStr env0.now)])) ∧
    (Dict.get? [("ticker", Value.vStr "AAPL")] "location" = none ∧
     (roundQuery [("ticker", Value.vStr "AAPL")] =
        "Predict the stock price for " ++
          (Dict.getD [("ticker", Value.vStr "AAPL")] "ticker"
            (Value.vStr "ADM")).pyStr ++
          " using weather data from Chicago." ∧
      ws_round env0 none [("ticker", Value.vStr "AAPL")] =
        [("weather", Value.vDict (get_weather env0.apiKey env0.fetch
            (Value.vStr "Chicago") env0.now)),
         ("prediction", Value.vDict (predict_stock_price env0.download env0.fit
            (Dict.getD [("ticker", Value.vStr "AAPL")] "ticker" (Value.vStr "ADM"))
            (get_weather env0.apiKey env0.fetch (Value.vStr "Chicago") env0.now)
            env0.now)),
         ("timestamp", Value.vStr env0.now)])) :=
  ⟨⟨rfl, (ws_round_defaults env0 none [("location", Value.vStr "Paris")]).1 rfl⟩,
   ⟨rfl, (ws_round_defaults env0 none [("ticker", Value.vStr "AAPL")]).2 rfl⟩⟩

/-- Claim C9: round trip of the spec-modelled suggest_activities: with the
fixed clear-weather result, interests hiking and budget 15 it returns exactly
the single hiking activity of cost 10; with budget 5 it returns the single
relax-at-hotel activity of cost 0. -/
theorem suggest_activities_round_trip :
    suggest_activities
        [("temperature", Value.vInt 20), ("humidity", Value.vInt 50),
         ("condition", Value.vStr "clear")] ["hiking"] 15 =
      [{ name := "hiking", cost := 10, suitable_weather := "clear" }] ∧
    suggest_activities
        [("temperature", Value.vInt 20), ("humidity", Value.vInt 50),
         ("condition", Value.vStr "clear")] ["hiking"] 5 =
      [{ name := "relax at hotel", cost := 0, suitable_weather := "any" }] :=
  ⟨rfl, rfl⟩

/-- Claim C10: when the weather mapping lacks the temperature or humidity
keys — for instance any error-tagged weather result — `predict_stock_price`
does not fail on them: `.get` substitutes 0 for each, and when stock data is
available and the statistical block succeeds it returns a success prediction
computed from those zeros. -/
theorem predict_missing_weather_keys (closes : List Int)
    (fit : List Int → Value → Value → FitResult) (ticker : Value) (wd : Dict)
    (now : String) (p : Int)
    (ht : Dict.get? wd "temperature" = none) (hh : Dict.get? wd "humidity" = none)
    (hne : closes.isEmpty = false)
    (hfit : fit closes (Value.vInt 0) (Value.vInt 0) = FitResult.ok p) :
    predict_stock_price (DownloadResult.ok closes) fit ticker wd now =
      [("status", Value.vStr "success"), ("ticker", ticker),
       ("predicted_price", Value.vInt p), ("timestamp", Value.vStr now)] := by
  simp [predict_stock_price, Dict.getD, ht, hh, hne, hfit]

theorem predict_missing_weather_keys_witness :
    Dict.get? [("status", Value.vStr "error"),
               ("error_message", Value.vStr "Failed to fetch weather: timeout")]
        "temperature" = none ∧
    Dict.get? [("status", Value.vStr "error"),
               ("error_message", Value.vStr "Failed to fetch weather: timeout")]
        "humidity" = none ∧
    ([(100 : Int)].isEmpty = false) ∧
    predict_stock_price (DownloadResult.ok [100])
        (fun _ _ _ => FitResult.ok 42) (Value.vStr "ADM")
        [("status", Value.vStr "error"),
         ("error_message", Value.vStr "Failed to fetch weather: timeout")]
        "2026-10-12 00:00:00" =
      [("status", Value.vStr "success"), ("ticker", Value.vStr "ADM"),
       ("predicted_price", Value.vInt 42), ("timestamp", Value.vStr "2026-10-12 00:00:00")] :=
  ⟨rfl, rfl, rfl,
   predict_missing_weather_keys [100] (fun _ _ _ => FitResult.ok 42)
     (Value.vStr "ADM")
     [("status", Value.vStr "error"),
      ("error_message", Value.vStr "Failed to fetch weather: timeout")]
     "2026-10-12 00:00:00" 42 rfl rfl rfl rfl⟩
